import Mathlib

/-!
Verification of the vid-opus-ai scene-extraction / image-acquisition /
progress-tracking / assembly pipeline.

The embedding models:
* `parseScriptAndScenes` from src/src/components/VideoGenerator.tsx (lines 63-123),
* the `generate-scene-images` edge function (src/unnamed/part_000),
* `generatePlaceholderImages` and the image-step fallback logic of
  `generateVideo` (VideoGenerator.tsx lines 160-195, 236-285),
* the `generateVideo` pipeline with its progress writes and job-record
  mutations (VideoGenerator.tsx lines 197-397).

Strings are modelled as `List Char` (JavaScript strings); all definitions are
computable so concrete runs evaluate with `decide` / `rfl`.
-/

namespace VidOpus

/-! Character and string primitives (JS semantics). -/

/-- JS whitespace test, restricted to the ASCII whitespace that can occur in
the pipeline inputs (`String.prototype.trim`, `\s` in the regexes). -/
def isWS (c : Char) : Bool :=
  c == ' ' || c == '\t' || c == '\n' || c == '\r'

/-- Digit class `\d`. -/
def isDig (c : Char) : Bool :=
  decide ('0' ≤ c) && decide (c ≤ '9')

/-- Drop leading whitespace. -/
def dropLead (l : List Char) : List Char := l.dropWhile isWS

/-- Drop trailing whitespace. -/
def dropTrail (l : List Char) : List Char := (dropLead l.reverse).reverse

/-- JS `String.prototype.trim`. -/
def jsTrim (l : List Char) : List Char := dropTrail (dropLead l)

/-- Model of `script.split('\n')` - split on newline, JS semantics
(`''.split('\n') = ['']`). -/
def splitLines : List Char → List (List Char)
  | [] => [[]]
  | c :: rest =>
    if c = '\n' then [] :: splitLines rest
    else
      match splitLines rest with
      | [] => [[c]]
      | h :: t => (c :: h) :: t

/-- JS `line.startsWith(pfx)`. -/
def startsWithS (pfx : String) (l : List Char) : Bool :=
  pfx.data.isPrefixOf l

/-- Substring containment (`message.includes(pat)`). -/
def hasSub (pat : List Char) : List Char → Bool
  | [] => pat.isEmpty
  | c :: r => pat.isPrefixOf (c :: r) || hasSub pat r

/-- JS `message.includes(pat)` on `String`. -/
def includesS (s pat : String) : Bool := hasSub pat.data s.data

/-! Scene parser (VideoGenerator.tsx, `parseScriptAndScenes`). -/

/-- A Scene record (`SceneData` in VideoGenerator.tsx). -/
structure SceneData where
  timestamp : List Char
  text : List Char
  visualDescription : List Char
  duration : Nat
deriving DecidableEq, Repr

/-- The generic fallback description used when no candidate exists at the
scene index. -/
def defaultDesc : List Char := "A professional video scene".data

/-- Model of `cleanDescriptions[sceneIndex] || 'A professional video scene'` -
JS `||` also replaces an empty (falsy) string. -/
def descAt (descs : List (List Char)) (i : Nat) : List Char :=
  match descs.get? i with
  | some d => if d = [] then defaultDesc else d
  | none => defaultDesc

/-- First match of the global regex `\[(\d{2}:\d{2})\]` - returns the captured
`MM:SS` group. (`regex.exec(line)`; after every iteration of the source loop
`lastIndex` is back at 0 - a failed `exec` resets it, and a successful `exec`
is always followed by `line.replace(timestampRegex, '')` which resets it - so
each line is effectively searched from position 0.) -/
def findStamp : List Char → Option (List Char)
  | '[' :: c1 :: c2 :: ':' :: c4 :: c5 :: ']' :: rest =>
    if isDig c1 && isDig c2 && isDig c4 && isDig c5 then some [c1, c2, ':', c4, c5]
    else findStamp (c1 :: c2 :: ':' :: c4 :: c5 :: ']' :: rest)
  | _ :: rest => findStamp rest
  | [] => none

/-- Model of `line.replace(timestampRegex, '')` - remove every `[MM:SS]` token,
resuming the scan after each match. -/
def stripStamps : List Char → List Char
  | '[' :: c1 :: c2 :: ':' :: c4 :: c5 :: ']' :: rest =>
    if isDig c1 && isDig c2 && isDig c4 && isDig c5 then stripStamps rest
    else '[' :: stripStamps (c1 :: c2 :: ':' :: c4 :: c5 :: ']' :: rest)
  | c :: rest => c :: stripStamps rest
  | [] => []

/-- Match of `^\[[\d:]+\s*-\s*[\d:]+\]` (timestamp-range line). The character
classes `[\d:]`, `\s` and the literals `-`, `]` are pairwise disjoint, so
greedy scanning needs no backtracking. -/
def matchTsRange (l : List Char) : Bool :=
  match l with
  | '[' :: r =>
    let a := r.takeWhile fun c => isDig c || c == ':'
    let r1 := r.dropWhile fun c => isDig c || c == ':'
    if a.isEmpty then false
    else
      match r1.dropWhile isWS with
      | '-' :: r3 =>
        let r4 := r3.dropWhile isWS
        let b := r4.takeWhile fun c => isDig c || c == ':'
        let r5 := r4.dropWhile fun c => isDig c || c == ':'
        if b.isEmpty then false
        else
          match r5 with
          | ']' :: _ => true
          | _ => false
      | _ => false
  | _ => false

/-- Match of `^\*\*[A-Z\s]+\*\*$` (section-header line). -/
def matchHeader (l : List Char) : Bool :=
  match l with
  | '*' :: '*' :: r =>
    match r.reverse with
    | '*' :: '*' :: m => !m.isEmpty && m.all fun c => (decide ('A' ≤ c) && decide (c ≤ 'Z')) || isWS c
    | _ => false
  | _ => false

/-- Label stripping, `line.replace` with the bullet-label regex -
strip the recognized bullet label, or return the line unchanged. -/
def stripLabel (l : List Char) : List Char :=
  match l with
  | '*' :: r =>
    if (r.takeWhile isWS).isEmpty then l
    else
      let r1 := r.dropWhile isWS
      if "**Visuals:**".data.isPrefixOf r1 then
        (r1.drop "**Visuals:**".data.length).dropWhile isWS
      else if "**B-roll:**".data.isPrefixOf r1 then
        (r1.drop "**B-roll:**".data.length).dropWhile isWS
      else l
  | _ => l

/-- One iteration of the candidate-extraction loop (VideoGenerator.tsx
lines 70-84): skip timestamp-range lines, header lines and every line starting
with `*   **`; otherwise, for a recognized bullet label, strip it, trim, and
keep the description when longer than 20 characters. -/
def descStep (acc : List (List Char)) (line : List Char) : List (List Char) :=
  if matchTsRange line || matchHeader line || startsWithS "*   **" line then acc
  else if startsWithS "*   **Visuals:**" line || startsWithS "*   **B-roll:**" line then
    let d := jsTrim (stripLabel line)
    if d.length > 20 then acc ++ [d] else acc
  else acc

/-- The candidate-extraction step over the visual-scenes block. -/
def cleanDescriptions (block : List Char) : List (List Char) :=
  ((splitLines block).filter fun l => !(jsTrim l).isEmpty).foldl descStep []

/-- The scene-accumulation loop of `parseScriptAndScenes` (lines 93-120),
including the final-flush rule `if (currentText && sceneIndex <
cleanDescriptions.length)`. -/
def sceneLoop : List (List Char) → List Char → List Char → List (List Char) → Nat → List SceneData
  | [], curTs, curText, descs, idx =>
    if curText ≠ [] ∧ idx < descs.length then
      [⟨curTs, jsTrim curText, descAt descs idx, 5⟩]
    else []
  | line :: rest, curTs, curText, descs, idx =>
    match findStamp line with
    | some ts =>
      if curText ≠ [] then
        ⟨curTs, jsTrim curText, descAt descs idx, 5⟩ ::
          sceneLoop rest ts (jsTrim (stripStamps line)) descs (idx + 1)
      else
        sceneLoop rest ts (jsTrim (stripStamps line)) descs idx
    | none => sceneLoop rest curTs (curText ++ ' ' :: line) descs idx

/-- The parser `parseScriptAndScenes` (VideoGenerator.tsx lines 63-123). -/
def parseScriptAndScenes (script visualScenes : List Char) : List SceneData :=
  let scriptLines := (splitLines script).filter fun l => !(jsTrim l).isEmpty
  let descs := cleanDescriptions visualScenes
  sceneLoop scriptLines "00:00".data [] descs 0

/-! Image Acquisition Orchestrator - remote strategy
(edge function `generate-scene-images`, src/unnamed/part_000) -/

/-- One response of the remote image-generation gateway, as classified by the
edge function: HTTP 429, another non-ok status (with its error body), an ok
response without image data, or an ok response with an image URL. -/
inductive RemoteResp
  | rateLimited
  | otherError (body : String)
  | okNoImage
  | okImage (url : String)
deriving DecidableEq, Repr

/-- Outcome of the per-scene retry loop: an image was acquired, an error was
thrown out of the loop, or the loop exited with neither (the scene is then
silently skipped by the enclosing for-loop). -/
inductive AcqStatus
  | acquired (url : String)
  | fatal (msg : String)
  | skipped
deriving DecidableEq, Repr

/-- Message thrown when an ok response carries no image. -/
def noImageMsg : String := "No image generated - check if prompt is valid"

/-- Message thrown for a non-ok, non-429 gateway response. -/
def gatewayMsg (body : String) : String := "AI gateway error: " ++ body

/-- Message thrown when the 429 retry budget is exhausted. -/
def rateLimitMsg : String :=
  "Rate limit exceeded. Please try again in a few moments or upgrade your plan for higher limits."

/-- The `while (retries > 0 && !imageUrl)` retry loop of the edge function
(part_000 lines 66-139), with its backoff waits (milliseconds) recorded.
State: `retries` is the current value of the `retries` variable; the list is
the remaining gateway responses.
* ok with image: push and exit.
* 429: `retries--`; if still positive wait `(4 - retries) * 2000` ms and
  retry; otherwise the thrown rate-limit error is caught by the inner
  `catch`, which (since `retries` is 0, not 1) decrements to -1, waits
  `(4 - (-1)) * 2000 = 10000` ms, and the loop exits with no image and no
  error - the scene is skipped.
* any other throw (gateway error, missing image): the `catch` rethrows when
  `retries === 1`, else `retries--` and waits `(4 - retries) * 2000` ms. -/
def attemptLoop : Nat → List RemoteResp → AcqStatus × List Nat
  | 0, _ => (.skipped, [])
  | _ + 1, [] => (.skipped, [])
  | r + 1, resp :: rest =>
    match resp with
    | .okImage url => (.acquired url, [])
    | .okNoImage =>
      if r = 0 then (.fatal noImageMsg, [])
      else
        let out := attemptLoop r rest
        (out.1, (4 - r) * 2000 :: out.2)
    | .otherError body =>
      if r = 0 then (.fatal (gatewayMsg body), [])
      else
        let out := attemptLoop r rest
        (out.1, (4 - r) * 2000 :: out.2)
    | .rateLimited =>
      if r = 0 then (.skipped, [10000])
      else
        let out := attemptLoop r rest
        (out.1, (4 - r) * 2000 :: out.2)

/-- An `AcquiredImage` entry (`sceneIndex` plus `imageUrl`). -/
structure AcquiredImage where
  sceneIndex : Nat
  imageUrl : String
deriving DecidableEq, Repr

instance {ε α : Type} [DecidableEq ε] [DecidableEq α] : DecidableEq (Except ε α) := fun x y =>
  match x, y with
  | .ok a, .ok b => if h : a = b then isTrue (by rw [h]) else isFalse (by simp [h])
  | .error a, .error b => if h : a = b then isTrue (by rw [h]) else isFalse (by simp [h])
  | .ok _, .error _ => isFalse (by simp)
  | .error _, .ok _ => isFalse (by simp)

/-- The per-scene for-loop of the edge function. `oracle i` is the response
sequence the gateway produces for scene `i`; `total` is the number of scenes
and `rem` the number still to process (`rem = total - idx`). Besides the
accumulated `images` array it records the `progress` values written to the
job record: `Math.round(((index + 1) / total) * 50)` before each scene,
modelled in exact rational arithmetic, and the final 50 on success. -/
def serveLoop (oracle : Nat → List RemoteResp) (total : Nat) :
    Nat → Nat → List AcquiredImage → List Nat →
    Except String (List AcquiredImage) × List Nat
  | 0, _, acc, ws => (.ok acc, ws ++ [50])
  | rem + 1, idx, acc, ws =>
    let ws1 := ws ++ [(100 * (idx + 1) + total) / (2 * total)]
    match (attemptLoop 3 (oracle idx)).1 with
    | .acquired url => serveLoop oracle total rem (idx + 1) (acc ++ [⟨idx, url⟩]) ws1
    | .fatal msg => (.error msg, ws1)
    | .skipped => serveLoop oracle total rem (idx + 1) acc ws1

/-- The edge function `serve` body: reject an empty scene list, otherwise set
the record to `processing` with progress 0 and loop over the scenes. Returns
the result (success body or thrown error) and the progress values written to
the job record. -/
def serveSceneImages (descs : List String) (oracle : Nat → List RemoteResp) :
    Except String (List AcquiredImage) × List Nat :=
  if descs.length = 0 then (.error "sceneDescriptions must be a non-empty array", [])
  else serveLoop oracle descs.length descs.length 0 [] [0]

/-! Placeholder fallback and the client image step
(VideoGenerator.tsx lines 160-195 and 236-285) -/

/-- The gradient palette of `generatePlaceholderImages`. -/
def colors : List String := ["#667eea", "#764ba2", "#f093fb", "#4facfe", "#43e97b"]

/-- The rendered description string: `substring(0, 60) + '...'` when longer
than 60 characters, the description itself otherwise. -/
def truncDesc (d : List Char) : List Char :=
  if d.length > 60 then d.take 60 ++ "...".data else d

/-- A placeholder canvas, described by its drawing parameters: the gradient
stops `colors[index % 5]` / `colors[(index + 1) % 5]`, the `Scene N` label,
and the rendered (possibly truncated) description. -/
structure PlaceholderImage where
  sceneIndex : Nat
  gradStart : String
  gradEnd : String
  label : String
  renderedDesc : List Char
deriving DecidableEq, Repr

/-- The canvas drawn for one scene at one index. -/
def mkPlaceholder (i : Nat) (scene : SceneData) : PlaceholderImage :=
  { sceneIndex := i
    gradStart := colors.getD (i % colors.length) ""
    gradEnd := colors.getD ((i + 1) % colors.length) ""
    label := "Scene " ++ toString (i + 1)
    renderedDesc := truncDesc scene.visualDescription }

/-- The indexed map underlying `scenes.map((scene, index) => ...)`. -/
def genPlaceholdersFrom (i : Nat) : List SceneData → List PlaceholderImage
  | [] => []
  | s :: rest => mkPlaceholder i s :: genPlaceholdersFrom (i + 1) rest

/-- The fallback `generatePlaceholderImages` (VideoGenerator.tsx lines 160-195). -/
def generatePlaceholderImages (scenes : List SceneData) : List PlaceholderImage :=
  genPlaceholdersFrom 0 scenes

/-- The quota / payment classifier `paymentOrRateError` of `generateVideo`
(lines 249-253; the same four substrings are re-tested inline in the
surrounding `catch` at lines 275-276). -/
def paymentOrRateError (m : String) : Bool :=
  includesS m "Payment required" || includesS m "payment_required" ||
    includesS m "credits" || includesS m "402"

/-- Outcome of `supabase.functions.invoke('generate-scene-images', ...)` as
seen by the client: a body with an images array, a body without one, or an
error (either `imageError` or a body `error` string). -/
inductive InvokeOutcome
  | ok (images : List AcquiredImage)
  | okNoImages
  | err (message : String)
deriving DecidableEq, Repr

/-- Result of the client image step. -/
inductive ImagesOrError
  | imgs (l : List AcquiredImage)
  | placeholders (l : List PlaceholderImage)
  | fatal (msg : String)
deriving DecidableEq, Repr

/-- The image step of `generateVideo` (lines 236-285): on an invoke error
whose message is classified as payment/quota, fall back to placeholders; on
any other error rethrow (the surrounding catch re-tests the same substrings
and rethrows again); a body without images throws `Failed to generate
images`, which the catch also rethrows since it matches no quota token. -/
def clientImageStep (scenes : List SceneData) (outcome : InvokeOutcome) : ImagesOrError :=
  match outcome with
  | .ok images => .imgs images
  | .okNoImages =>
    if paymentOrRateError "Failed to generate images" then
      .placeholders (generatePlaceholderImages scenes)
    else .fatal "Failed to generate images"
  | .err m =>
    if paymentOrRateError m then .placeholders (generatePlaceholderImages scenes)
    else if paymentOrRateError m then .placeholders (generatePlaceholderImages scenes)
    else .fatal m

/-! Video Assembler and the full pipeline (VideoGenerator.tsx 197-397). -/

/-- The encoded artifact, described by what the ffmpeg recipe produces: one
frame written per received image (`image%d.png`, 5 seconds each at framerate
1/5) and the `-t` duration cap `scenes.length * 5`. The assembler loop never
compares the image count against the scene count. -/
structure VideoArtifact where
  framesWritten : Nat
  durationCapSeconds : Nat
deriving DecidableEq, Repr

/-- The assembler (lines 314-343): write each received image into the ffmpeg
filesystem and invoke the fixed recipe. `engineOk` abstracts the transcoding
engine itself; no completeness check of any kind is performed on `images`. -/
def assembleVideo (images : List AcquiredImage) (numScenes : Nat) (engineOk : Bool) :
    Except String VideoArtifact :=
  if engineOk then .ok ⟨images.length, numScenes * 5⟩ else .error "transcode failed"

/-- The durable job record (table `video_generation_jobs`), the fields this
pipeline mutates. -/
structure JobRec where
  status : String
  progress : Nat
  currentStep : String
  errorMessage : Option String
deriving DecidableEq, Repr

/-- Environment of one `generateVideo` invocation.
`jobIdState` is the value of the React state variable `jobId` captured by the
closure when the handler was created: `null` on the first run of a freshly
mounted component; `setJobId` inside the run does not change it.
`newJobId` is the id of the record the insert creates. -/
structure ClientEnv where
  userPresent : Bool
  jobCreateOk : Bool
  jobIdState : Option Nat
  newJobId : Nat
  invokeOutcome : InvokeOutcome
  engineLoadOk : Bool
  encodeOk : Bool
deriving Repr

/-- State tracked across one run: the created job record (none until the
insert), the sequence of `setProgressPercent` values, and the artifact. -/
structure RunState where
  job : Option JobRec
  obs : List Nat
  artifact : Option VideoArtifact
deriving DecidableEq, Repr

/-- Append one `setProgressPercent` value to the observable trace. -/
def pushObs (st : RunState) (p : Nat) : RunState :=
  { st with obs := st.obs ++ [p] }

/-- Apply a field update to the created job record, when it exists. -/
def updJob (st : RunState) (f : JobRec → JobRec) : RunState :=
  { st with job := st.job.map f }

/-- The `catch` block of `generateVideo` (lines 364-396): the job is updated
to `failed` only when the captured `jobId` state is non-null, and the update
targets that captured id - which is never the id of the job created by this
run. Afterwards the observable progress is reset to 0. -/
def failCatch (env : ClientEnv) (st : RunState) (msg : String) : RunState :=
  let st1 :=
    match env.jobIdState with
    | some jid =>
      if jid = env.newJobId then
        updJob st fun j => { j with status := "failed", errorMessage := some msg }
      else st
    | none => st
  pushObs st1 0

/-- Images handed to the assembler, re-encoded as data URLs in the
placeholder case (`canvas.toDataURL` is opaque; only index and count matter
downstream). -/
def toAcquired : ImagesOrError → List AcquiredImage
  | .imgs l => l
  | .placeholders l => l.map fun p => ⟨p.sceneIndex, "data:image/png;base64,placeholder"⟩
  | .fatal _ => []

/-- Model of `Math.round((i / m) * 15)` scaled into the 65-80 band, in exact
arithmetic: `65 + floor((30 i + m) / (2 m))`. -/
def imgProgress (m i : Nat) : Nat := 65 + (30 * i + m) / (2 * m)

/-- The `generateVideo` pipeline (lines 197-397): progress writes, job-record
writes and failure handling in source order. Job-record updates in the happy
path target `job.id` (the created record); only the catch block uses the
stale `jobId` state. -/
def generateVideoModel (script visualScenes : List Char) (env : ClientEnv) : RunState :=
  let st0 : RunState := { job := none, obs := [0], artifact := none }
  if !env.userPresent then
    failCatch env st0 "You must be logged in to generate videos"
  else if !env.jobCreateOk then
    failCatch env st0 "job insert failed"
  else
    let st1 : RunState :=
      { st0 with job := some ⟨"pending", 0, "Parsing script and scenes", none⟩ }
    let st2 := pushObs st1 5
    let scenes := parseScriptAndScenes script visualScenes
    if scenes.isEmpty then failCatch env st2 "No scenes found in the script"
    else
      let st3 := pushObs st2 10
      match clientImageStep scenes env.invokeOutcome with
      | .fatal msg => failCatch env st3 msg
      | result =>
        let images := toAcquired result
        let st4 := updJob (pushObs st3 55) fun j =>
          { j with currentStep := "Loading video processor", progress := 55 }
        if !env.engineLoadOk then failCatch env st4 "engine load failed"
        else
          let st5 := updJob (pushObs st4 65) fun j =>
            { j with currentStep := "Processing scene images", progress := 65 }
          let st6 :=
            { st5 with obs := st5.obs ++ (List.range images.length).map (imgProgress images.length) }
          let st7 := updJob (pushObs st6 80) fun j =>
            { j with currentStep := "Rendering final video", progress := 80 }
          match assembleVideo images scenes.length env.encodeOk with
          | .error msg => failCatch env st7 msg
          | .ok art =>
            updJob { (pushObs st7 100) with artifact := some art } fun j =>
              { j with status := "completed", progress := 100, currentStep := "Video generation complete!" }

/-- The `setProgressPercent` values of one successful run with `m` images:
0, 5, 10, 55, 65, the per-image band, 80, 100. -/
def successObs (m : Nat) : List Nat :=
  0 :: 5 :: 10 :: 55 :: 65 :: ((List.range m).map (imgProgress m) ++ [80, 100])

/-- All `progress` values written to the durable job record over one run in
which the remote acquisition succeeds, in write order: the insert (0), the
edge-function writes (its own trace), then the client writes 55, 65, 80, 100. -/
def recordWrites (descs : List String) (oracle : Nat → List RemoteResp) : List Nat :=
  0 :: (serveSceneImages descs oracle).2 ++ [55, 65, 80, 100]

/-! Concrete inputs used by the claim analyses. -/

/-- The visual-scenes block of C3. -/
def block3 : List Char :=
  "*   **Visuals:** A city skyline at dawn\n*   **B-roll:** Busy street traffic".data

/-- The short bullet line of C3. -/
def shortLine : List Char := "*   **Visuals:** short".data

/-- A 61-character visual description. -/
def d61 : List Char := List.replicate 61 'a'

/-- One scene carrying the 61-character description. -/
def scene61 : SceneData := ⟨"00:00".data, "x".data, d61, 5⟩

/-- A gateway that answers every request of every scene with HTTP 429. -/
def tripleRate : Nat → List RemoteResp := fun _ => [.rateLimited, .rateLimited, .rateLimited]

/-- A first-run environment (the `jobId` state is still null) in which every
external collaborator works. -/
def envFirstRun : ClientEnv := ⟨true, true, none, 1, .ok [⟨0, "u"⟩], true, true⟩

/-- A first-run environment whose invoke step returns a single image. -/
def envOneImage : ClientEnv := ⟨true, true, none, 7, .ok [⟨0, "data:image/png;base64,x"⟩], true, true⟩

/-- A three-marker script whose narrations are one word each. -/
def script3 : List Char := "[00:00] Intro line\n[00:05] Second line\n[00:10] Third line".data

end VidOpus

namespace VidOpus

/-! Helper lemmas. -/

/-- A prefix of a prefix is a prefix (`startsWith` is monotone in the
pattern). -/
theorem startsWith_mono {p q : String} {l : List Char} (hpq : p.data <+: q.data)
    (h : startsWithS q l = true) : startsWithS p l = true := by
  unfold startsWithS at h ⊢
  rw [List.isPrefixOf_iff_prefix] at h ⊢
  exact hpq.trans h

/-- Folding a function that never changes the accumulator. -/
theorem foldl_const {α β : Type} (f : β → α → β) (h : ∀ b a, f b a = b) (b : β)
    (l : List α) : l.foldl f b = b := by
  induction l generalizing b with
  | nil => rfl
  | cons x xs ih => simp only [List.foldl_cons, h]; exact ih b

/-- Every iteration of the candidate-extraction loop leaves the accumulator
unchanged: any line passing the `startsWith` tests of the extraction branch
also starts with the skipped prefix, so the branch is unreachable. -/
theorem descStep_eq (acc : List (List Char)) (line : List Char) :
    descStep acc line = acc := by
  unfold descStep
  split
  · rfl
  next hskip =>
    split
    next hlab =>
      exfalso
      have hor : startsWithS "*   **Visuals:**" line = true ∨
          startsWithS "*   **B-roll:**" line = true := by simpa using hlab
      have h2 : startsWithS "*   **" line = true := by
        rcases hor with h | h
        · exact startsWith_mono (by decide) h
        · exact startsWith_mono (by decide) h
      exact hskip (by simp [h2])
    · rfl

/-- The candidate-extraction step returns the empty list on every input. -/
theorem cleanDescriptions_nil (b : List Char) : cleanDescriptions b = [] :=
  foldl_const _ descStep_eq [] _

/-- The function `splitLines` never returns the empty list. -/
theorem splitLines_ne_nil (l : List Char) : splitLines l ≠ [] := by
  cases l with
  | nil => simp [splitLines]
  | cons c rest =>
    unfold splitLines
    split
    · simp
    · split <;> simp

/-- Splitting at the first newline. -/
theorem splitLines_append {a : List Char} (b : List Char) (h : '\n' ∉ a) :
    splitLines (a ++ '\n' :: b) = a :: splitLines b := by
  induction a with
  | nil => simp [splitLines]
  | cons c cs ih =>
    have hc : c ≠ '\n' := fun e => h (e ▸ List.mem_cons_self c cs)
    have hcs : '\n' ∉ cs := fun m => h (List.mem_cons_of_mem _ m)
    simp only [List.cons_append, splitLines]
    rw [if_neg hc]
    simp only [List.append_eq]
    rw [ih hcs]

/-- A newline-free string is a single line. -/
theorem splitLines_no_nl {a : List Char} (h : '\n' ∉ a) : splitLines a = [a] := by
  induction a with
  | nil => rfl
  | cons c cs ih =>
    have hc : c ≠ '\n' := fun e => h (e ▸ List.mem_cons_self c cs)
    have hcs : '\n' ∉ cs := fun m => h (List.mem_cons_of_mem _ m)
    unfold splitLines
    rw [if_neg hc, ih hcs]

/-- Trimming is unaffected by one leading space. -/
theorem jsTrim_space (l : List Char) : jsTrim (' ' :: l) = jsTrim l := rfl

/-- The function `dropLead` keeps a non-whitespace head. -/
theorem dropLead_cons_false {c : Char} {l : List Char} (h : isWS c = false) :
    dropLead (c :: l) = c :: l := by
  simp [dropLead, List.dropWhile_cons, h]

/-- Dropping a prefix cannot erase a final non-matching element. -/
theorem dropWhile_append_one {p : Char → Bool} {x : Char} (h : p x = false)
    (xs : List Char) : (xs ++ [x]).dropWhile p ≠ [] := by
  induction xs with
  | nil => simp [List.dropWhile_cons, h]
  | cons a as ih =>
    by_cases ha : p a = true
    · simpa [List.dropWhile_cons, ha] using ih
    · simp [List.dropWhile_cons, Bool.eq_false_iff.mpr ha]

/-- The function `dropTrail` keeps something of a list with a non-whitespace head. -/
theorem dropTrail_cons_ne {c : Char} (l : List Char) (h : isWS c = false) :
    dropTrail (c :: l) ≠ [] := by
  unfold dropTrail
  intro he
  rw [List.reverse_eq_nil_iff] at he
  rw [List.reverse_cons] at he
  exact dropWhile_append_one h l.reverse he

/-- A line with a non-whitespace head survives trimming. -/
theorem jsTrim_ne_of_head {c : Char} {l : List Char} (h : isWS c = false) :
    jsTrim (c :: l) ≠ [] := by
  unfold jsTrim
  rw [dropLead_cons_false h]
  exact dropTrail_cons_ne l h

/-- Bridge to the Boolean filter of `parseScriptAndScenes`. -/
theorem keep_of_trim_ne {l : List Char} (h : jsTrim l ≠ []) :
    (!(jsTrim l).isEmpty) = true := by
  cases hl : jsTrim l with
  | nil => exact absurd hl h
  | cons a as => rfl

/-- Filtering keeps a line the predicate accepts. -/
theorem filter_keep_cons (p : List Char → Bool) (a : List Char) (l : List (List Char))
    (h : p a = true) : List.filter p (a :: l) = a :: List.filter p l := by
  simp [List.filter_cons, h]

/-! Claim theorems. -/

/-- C3 counterexample: the candidate-extraction step applied to the block
consisting of the two bullet lines does not yield the claimed candidate list
- it yields the empty list, because every line beginning with the skipped
prefix is discarded before the extraction branch is reached. -/
theorem claim_C3_counterexample :
    cleanDescriptions block3 ≠ ["A city skyline at dawn".data, "Busy street traffic".data] := by
  decide

/-- C3 (amended): the candidate-extraction step yields no candidate at all -
on the two-line block of the claim, on the short line, and on every other
input - because the skip filter discards every line starting with the bullet
prefix before the extraction branch can test it. -/
theorem claim_C3_extraction_yields_nothing :
    (∀ b : List Char, cleanDescriptions b = []) ∧
    cleanDescriptions block3 = [] ∧ cleanDescriptions shortLine = [] :=
  ⟨cleanDescriptions_nil, cleanDescriptions_nil block3, cleanDescriptions_nil shortLine⟩

/-- C5: a 429 on the first attempt followed by a success on the second yields
an acquired image, as claimed; but three consecutive 429s do NOT raise a
fatal error - the thrown rate-limit error is swallowed by the inner catch
(`retries` is 0, not 1, at that point) and the loop exits with no image and
no error, so the scene is silently skipped. -/
theorem claim_C5_rate_limit_exhaustion :
    (attemptLoop 3 [.rateLimited, .okImage "second-try"]).1 = .acquired "second-try" ∧
    (attemptLoop 3 [.rateLimited, .rateLimited, .rateLimited]).1 = .skipped ∧
    ∀ m, (attemptLoop 3 [.rateLimited, .rateLimited, .rateLimited]).1 ≠ .fatal m :=
  ⟨rfl, rfl, fun _ h => AcqStatus.noConfusion h⟩

/-- C2: with one scene whose three attempts are all rate-limited, the edge
function returns a SUCCESS response whose images array is empty - fewer
entries than scenes - instead of one entry per scene or an error. -/
theorem claim_C2_success_with_missing_entry :
    (serveSceneImages ["the only scene"] tripleRate).1 = .ok ([] : List AcquiredImage) ∧
    (["the only scene"] : List String).length = 1 :=
  ⟨rfl, rfl⟩

/-- C9 counterexample: for non-rate-limit failures the recorded backoff waits
are 4000 ms then 6000 ms - the first wait is not one second and the step
between waits is 2000 ms, not the one-second step the claim states. -/
theorem claim_C9_counterexample :
    (attemptLoop 3 [.otherError "first failure", .otherError "second failure",
        .okImage "third try"]).2 = [4000, 6000] ∧
    (attemptLoop 3 [.otherError "first failure", .otherError "second failure",
        .okImage "third try"]).2.head? ≠ some 1000 ∧
    ¬ List.Chain' (fun a b : Nat => b = a + 1000)
        (attemptLoop 3 [.otherError "first failure", .otherError "second failure",
          .okImage "third try"]).2 := by
  refine ⟨rfl, by decide, fun hch => ?_⟩
  have he : (attemptLoop 3 [.otherError "first failure", .otherError "second failure",
      .okImage "third try"]).2 = [4000, 6000] := rfl
  rw [he] at hch
  have h1 : (6000 : Nat) = 4000 + 1000 := (List.chain'_cons.mp hch).1
  omega

/-- The indexed placeholder map, one position at a time. -/
theorem genPlaceholdersFrom_get (l : List SceneData) :
    ∀ k i, (genPlaceholdersFrom k l).get? i = (l.get? i).map fun s => mkPlaceholder (k + i) s := by
  induction l with
  | nil => intro k i; simp [genPlaceholdersFrom]
  | cons s rest ih =>
    intro k i
    cases i with
    | zero => simp [genPlaceholdersFrom]
    | succ j =>
      simp only [genPlaceholdersFrom, List.get?_cons_succ, ih (k + 1) j]
      have harith : k + 1 + j = k + (j + 1) := by omega
      rw [harith]

/-- The placeholder list has one entry per scene. -/
theorem genPlaceholdersFrom_length (l : List SceneData) :
    ∀ k, (genPlaceholdersFrom k l).length = l.length := by
  induction l with
  | nil => intro k; rfl
  | cons s rest ih => intro k; simp [genPlaceholdersFrom, ih (k + 1)]

/-- The rendered description never exceeds 63 characters (60 plus the
ellipsis). -/
theorem truncDesc_length_le (d : List Char) : (truncDesc d).length ≤ 63 := by
  unfold truncDesc
  split
  · rw [List.length_append, List.length_take]
    have h3 : ("...".data).length = 3 := rfl
    omega
  · next h => omega

/-- C6 counterexample: for a 61-character visual description the placeholder
overlay string has 63 characters (the first 60 plus an ellipsis), so the
rendering is NOT truncated to at most 60 characters as the claim states. -/
theorem claim_C6_counterexample :
    clientImageStep [scene61] (.err "payment_required") =
      .placeholders (generatePlaceholderImages [scene61]) ∧
    (generatePlaceholderImages [scene61]).map (fun p => p.renderedDesc.length) = [63] ∧
    ¬ (63 ≤ 60) := by
  decide

/-- C6 (amended): a failure classified as payment-required / quota (the
message contains a payment-required indicator, the word credits, or 402)
triggers the offline fallback with no fatal error; for every list of N
scenes this produces exactly N placeholders, the entry at index i carrying
scene index i, the gradient pair selected by i mod the palette size, the
scene number label, and a rendering of the visual description that is the
first 60 characters followed by an ellipsis when the description is longer
than 60 characters (hence at most 63 characters), and the description
itself otherwise. -/
theorem claim_C6_quota_fallback (scenes : List SceneData) (m : String)
    (h : paymentOrRateError m = true) :
    clientImageStep scenes (.err m) = .placeholders (generatePlaceholderImages scenes) ∧
    (generatePlaceholderImages scenes).length = scenes.length ∧
    ∀ i s, scenes.get? i = some s →
      (generatePlaceholderImages scenes).get? i = some (mkPlaceholder i s) ∧
      (mkPlaceholder i s).sceneIndex = i ∧
      (mkPlaceholder i s).gradStart = colors.getD (i % colors.length) "" ∧
      (mkPlaceholder i s).renderedDesc = truncDesc s.visualDescription ∧
      (mkPlaceholder i s).renderedDesc.length ≤ 63 := by
  refine ⟨by simp [clientImageStep, h], genPlaceholdersFrom_length scenes 0, ?_⟩
  intro i s hs
  have hg := genPlaceholdersFrom_get scenes 0 i
  rw [hs] at hg
  have hg2 : (generatePlaceholderImages scenes).get? i = some (mkPlaceholder (0 + i) s) := hg
  rw [Nat.zero_add] at hg2
  exact ⟨hg2, rfl, rfl, rfl, truncDesc_length_le _⟩

/-- C6 witness: the quota classifier accepts the message `credits` and the
fallback is taken on a concrete one-scene input. -/
theorem claim_C6_quota_fallback_witness :
    clientImageStep [scene61] (.err "credits") =
      .placeholders (generatePlaceholderImages [scene61]) :=
  (claim_C6_quota_fallback [scene61] "credits" (by decide)).1

/-- The stamp scanner finds a leading `[00:00]` regardless of what follows. -/
theorem findStamp_00 (rest : List Char) :
    findStamp ('[' :: '0' :: '0' :: ':' :: '0' :: '0' :: ']' :: rest) = some "00:00".data := rfl

/-- The stamp scanner finds a leading `[00:05]`. -/
theorem findStamp_05 (rest : List Char) :
    findStamp ('[' :: '0' :: '0' :: ':' :: '0' :: '5' :: ']' :: rest) = some "00:05".data := rfl

/-- The stamp scanner finds a leading `[00:10]`. -/
theorem findStamp_10 (rest : List Char) :
    findStamp ('[' :: '0' :: '0' :: ':' :: '1' :: '0' :: ']' :: rest) = some "00:10".data := rfl

/-- Token removal consumes a leading `[00:00]`. -/
theorem stripStamps_00 (rest : List Char) :
    stripStamps ('[' :: '0' :: '0' :: ':' :: '0' :: '0' :: ']' :: rest) = stripStamps rest := rfl

/-- Token removal consumes a leading `[00:05]`. -/
theorem stripStamps_05 (rest : List Char) :
    stripStamps ('[' :: '0' :: '0' :: ':' :: '0' :: '5' :: ']' :: rest) = stripStamps rest := rfl

/-- Token removal consumes a leading `[00:10]`. -/
theorem stripStamps_10 (rest : List Char) :
    stripStamps ('[' :: '0' :: '0' :: ':' :: '1' :: '0' :: ']' :: rest) = stripStamps rest := rfl

/-- Token removal walks over a leading space. -/
theorem stripStamps_space (t : List Char) :
    stripStamps (' ' :: t) = ' ' :: stripStamps t := rfl

/-- A stamped line contains no newline when its narration does not. -/
theorem nl_notin_line {t : List Char} (a b c d : Char) (ha : a ≠ '\n') (hb : b ≠ '\n')
    (hc : c ≠ '\n') (hd : d ≠ '\n') (ht : '\n' ∉ t) :
    '\n' ∉ ('[' :: a :: b :: ':' :: c :: d :: ']' :: ' ' :: t) := by
  simp only [List.mem_cons, not_or]
  exact ⟨by decide, fun e => ha e.symm, fun e => hb e.symm, by decide, fun e => hc e.symm,
    fun e => hd e.symm, by decide, by decide, ht⟩

/-- C4: for a script whose three lines carry the markers `[00:00]`, `[00:05]`
and `[00:10]`, each followed by (trimmed, stamp-free, newline-free) narration,
the parser yields exactly the first two Scene records - fewer than 3 per the
last-scene rule, which always drops the final flush because the candidate
list is empty - with timestamps `00:00` and `00:05` in order and each text
being the narration accumulated since its marker with the token stripped. -/
theorem claim_C4_three_marker_script (block t1 t2 t3 : List Char)
    (hs1 : stripStamps t1 = t1) (ht1 : jsTrim t1 = t1) (hn1 : t1 ≠ []) (hl1 : '\n' ∉ t1)
    (hs2 : stripStamps t2 = t2) (ht2 : jsTrim t2 = t2) (hn2 : t2 ≠ []) (hl2 : '\n' ∉ t2)
    (hl3 : '\n' ∉ t3) :
    parseScriptAndScenes
      (('[' :: '0' :: '0' :: ':' :: '0' :: '0' :: ']' :: ' ' :: t1) ++ '\n' ::
        (('[' :: '0' :: '0' :: ':' :: '0' :: '5' :: ']' :: ' ' :: t2) ++ '\n' ::
          ('[' :: '0' :: '0' :: ':' :: '1' :: '0' :: ']' :: ' ' :: t3))) block =
      [⟨"00:00".data, t1, defaultDesc, 5⟩, ⟨"00:05".data, t2, defaultDesc, 5⟩] := by
  unfold parseScriptAndScenes
  rw [cleanDescriptions_nil]
  rw [splitLines_append _ (nl_notin_line '0' '0' '0' '0' (by decide) (by decide) (by decide)
    (by decide) hl1)]
  rw [splitLines_append _ (nl_notin_line '0' '0' '0' '5' (by decide) (by decide) (by decide)
    (by decide) hl2)]
  rw [splitLines_no_nl (nl_notin_line '0' '0' '1' '0' (by decide) (by decide) (by decide)
    (by decide) hl3)]
  have k1 := keep_of_trim_ne (l := '[' :: '0' :: '0' :: ':' :: '0' :: '0' :: ']' :: ' ' :: t1)
    (jsTrim_ne_of_head (by decide))
  have k2 := keep_of_trim_ne (l := '[' :: '0' :: '0' :: ':' :: '0' :: '5' :: ']' :: ' ' :: t2)
    (jsTrim_ne_of_head (by decide))
  have k3 := keep_of_trim_ne (l := '[' :: '0' :: '0' :: ':' :: '1' :: '0' :: ']' :: ' ' :: t3)
    (jsTrim_ne_of_head (by decide))
  rw [filter_keep_cons (fun l => !(jsTrim l).isEmpty) _ _ k1,
    filter_keep_cons (fun l => !(jsTrim l).isEmpty) _ _ k2,
    filter_keep_cons (fun l => !(jsTrim l).isEmpty) _ _ k3, List.filter_nil]
  rw [show sceneLoop
      (('[' :: '0' :: '0' :: ':' :: '0' :: '0' :: ']' :: ' ' :: t1) ::
        ('[' :: '0' :: '0' :: ':' :: '0' :: '5' :: ']' :: ' ' :: t2) ::
          [('[' :: '0' :: '0' :: ':' :: '1' :: '0' :: ']' :: ' ' :: t3)])
      "00:00".data [] [] 0 =
    sceneLoop
      (('[' :: '0' :: '0' :: ':' :: '0' :: '5' :: ']' :: ' ' :: t2) ::
        [('[' :: '0' :: '0' :: ':' :: '1' :: '0' :: ']' :: ' ' :: t3)])
      "00:00".data (jsTrim (' ' :: stripStamps t1)) [] 0 from by
    simp [sceneLoop, findStamp_00, stripStamps_00, stripStamps_space]]
  rw [hs1, jsTrim_space, ht1]
  rw [show sceneLoop
      (('[' :: '0' :: '0' :: ':' :: '0' :: '5' :: ']' :: ' ' :: t2) ::
        [('[' :: '0' :: '0' :: ':' :: '1' :: '0' :: ']' :: ' ' :: t3)])
      "00:00".data t1 [] 0 =
    ⟨"00:00".data, jsTrim t1, descAt [] 0, 5⟩ ::
      sceneLoop [('[' :: '0' :: '0' :: ':' :: '1' :: '0' :: ']' :: ' ' :: t3)]
        "00:05".data (jsTrim (stripStamps ('[' :: '0' :: '0' :: ':' :: '0' :: '5' :: ']' ::
          ' ' :: t2))) [] 1 from by
    simp [sceneLoop, findStamp_05, hn1]]
  rw [ht1, stripStamps_05, stripStamps_space, hs2, jsTrim_space, ht2]
  rw [show sceneLoop [('[' :: '0' :: '0' :: ':' :: '1' :: '0' :: ']' :: ' ' :: t3)]
      "00:05".data t2 [] 1 =
    ⟨"00:05".data, jsTrim t2, descAt [] 1, 5⟩ ::
      sceneLoop [] "00:10".data (jsTrim (stripStamps ('[' :: '0' :: '0' :: ':' :: '1' :: '0' ::
        ']' :: ' ' :: t3))) [] 2 from by
    simp [sceneLoop, findStamp_10, hn2]]
  rw [ht2]
  simp [sceneLoop, descAt]

/-- C4 witness: the theorem applied to a concrete three-marker script. -/
theorem claim_C4_witness :
    parseScriptAndScenes
      (('[' :: '0' :: '0' :: ':' :: '0' :: '0' :: ']' :: ' ' :: "Intro narration".data) ++ '\n' ::
        (('[' :: '0' :: '0' :: ':' :: '0' :: '5' :: ']' :: ' ' :: "Middle narration".data) ++ '\n' ::
          ('[' :: '0' :: '0' :: ':' :: '1' :: '0' :: ']' :: ' ' :: "Final narration".data))) [] =
      [⟨"00:00".data, "Intro narration".data, defaultDesc, 5⟩,
       ⟨"00:05".data, "Middle narration".data, defaultDesc, 5⟩] :=
  claim_C4_three_marker_script [] "Intro narration".data "Middle narration".data
    "Final narration".data (by decide) (by decide) (by decide) (by decide)
    (by decide) (by decide) (by decide) (by decide) (by decide)

/-- C10: narration lines before the first timestamp token are emitted as the
first Scene with the initial default boundary stamp `00:00`, even though no
`[00:00]` marker appears in the script (the only marker here is `[00:37]`). -/
theorem claim_C10_leading_narration (block t0 : List Char)
    (h1 : findStamp t0 = none) (h2 : jsTrim t0 ≠ []) (h3 : '\n' ∉ t0) :
    parseScriptAndScenes
      (t0 ++ '\n' :: ('[' :: '0' :: '0' :: ':' :: '3' :: '7' :: ']' :: ' ' :: "The end.".data))
      block =
      [⟨"00:00".data, jsTrim t0, defaultDesc, 5⟩] := by
  unfold parseScriptAndScenes
  rw [cleanDescriptions_nil]
  rw [splitLines_append _ h3]
  rw [splitLines_no_nl (a := '[' :: '0' :: '0' :: ':' :: '3' :: '7' :: ']' :: ' ' :: "The end.".data)
    (by decide)]
  rw [filter_keep_cons (fun l => !(jsTrim l).isEmpty) _ _ (keep_of_trim_ne h2),
    filter_keep_cons (fun l => !(jsTrim l).isEmpty) _ _
      (keep_of_trim_ne
        (l := '[' :: '0' :: '0' :: ':' :: '3' :: '7' :: ']' :: ' ' :: "The end.".data)
        (jsTrim_ne_of_head (by decide))),
    List.filter_nil]
  rw [show sceneLoop
      (t0 :: [('[' :: '0' :: '0' :: ':' :: '3' :: '7' :: ']' :: ' ' :: "The end.".data)])
      "00:00".data [] [] 0 =
    sceneLoop [('[' :: '0' :: '0' :: ':' :: '3' :: '7' :: ']' :: ' ' :: "The end.".data)]
      "00:00".data ([] ++ ' ' :: t0) [] 0 from by
    simp [sceneLoop, h1]]
  rw [show sceneLoop [('[' :: '0' :: '0' :: ':' :: '3' :: '7' :: ']' :: ' ' :: "The end.".data)]
      "00:00".data ([] ++ ' ' :: t0) [] 0 =
    ⟨"00:00".data, jsTrim (' ' :: t0), descAt [] 0, 5⟩ ::
      sceneLoop [] "00:37".data
        (jsTrim (stripStamps ('[' :: '0' :: '0' :: ':' :: '3' :: '7' :: ']' :: ' ' ::
          "The end.".data))) [] 1 from by
    simp [sceneLoop]
    rfl]
  rw [jsTrim_space]
  simp [sceneLoop, descAt]

/-- C10 witness: a concrete script whose narration precedes its only marker. -/
theorem claim_C10_witness :
    parseScriptAndScenes
      ("Opening narration text".data ++ '\n' ::
        ('[' :: '0' :: '0' :: ':' :: '3' :: '7' :: ']' :: ' ' :: "The end.".data)) [] =
      [⟨"00:00".data, "Opening narration text".data, defaultDesc, 5⟩] := by
  have h := claim_C10_leading_narration [] "Opening narration text".data
    (by decide) (by decide) (by decide)
  rw [h]
  decide

/-- C1: on the first run of a freshly mounted component, a fatal error after
the job record is created (here: an empty script) leaves the record in the
non-terminal `pending` state - the catch block guards its failed-update on
the React state variable `jobId`, which is still null inside the running
closure because `setJobId` does not mutate the captured value - while a
successful run does reach `completed`. -/
theorem claim_C1_stale_job_state :
    (generateVideoModel [] [] envFirstRun).job =
      some ⟨"pending", 0, "Parsing script and scenes", none⟩ ∧
    "pending" ≠ "failed" ∧
    (generateVideoModel "[00:00] Hello\n[00:05] World".data [] envFirstRun).job =
      some ⟨"completed", 100, "Video generation complete!", none⟩ := by
  refine ⟨by decide, by decide, by decide⟩

/-- Unrolling the edge-function loop when every scene is acquired: one image
per index in order, and the per-scene progress writes followed by the final
50. -/
theorem serveLoop_acquired (oracle : Nat → List RemoteResp) (total : Nat) (u : Nat → String)
    (hall : ∀ i, i < total → (attemptLoop 3 (oracle i)).1 = .acquired (u i)) :
    ∀ rem idx acc ws, idx + rem = total →
      serveLoop oracle total rem idx acc ws =
        (.ok (acc ++ (List.range rem).map fun k => ⟨idx + k, u (idx + k)⟩),
         ws ++ ((List.range rem).map fun k => (100 * (idx + k + 1) + total) / (2 * total))
           ++ [50]) := by
  intro rem
  induction rem with
  | zero =>
    intro idx acc ws h
    simp [serveLoop]
  | succ m ih =>
    intro idx acc ws h
    have hidx : idx < total := by omega
    rw [show serveLoop oracle total (m + 1) idx acc ws =
        serveLoop oracle total m (idx + 1) (acc ++ [⟨idx, u idx⟩])
          (ws ++ [(100 * (idx + 1) + total) / (2 * total)]) from by
      rw [show serveLoop oracle total (m + 1) idx acc ws =
          (match (attemptLoop 3 (oracle idx)).1 with
           | .acquired url => serveLoop oracle total m (idx + 1) (acc ++ [⟨idx, url⟩])
               (ws ++ [(100 * (idx + 1) + total) / (2 * total)])
           | .fatal msg => (.error msg, ws ++ [(100 * (idx + 1) + total) / (2 * total)])
           | .skipped => serveLoop oracle total m (idx + 1) acc
               (ws ++ [(100 * (idx + 1) + total) / (2 * total)])) from rfl,
        hall idx hidx]]
    rw [ih (idx + 1) (acc ++ [AcquiredImage.mk idx (u idx)])
      (ws ++ [(100 * (idx + 1) + total) / (2 * total)]) (by omega)]
    have hshift : ∀ k : Nat, idx + 1 + k = idx + (k + 1) := fun k => by omega
    simp only [List.range_succ_eq_map, List.map_cons, List.map_map, Function.comp,
      Nat.add_zero, List.append_assoc, List.cons_append, List.nil_append, hshift]
    have hc1 : ((fun k => AcquiredImage.mk (idx + k) (u (idx + k))) ∘ Nat.succ) =
        fun k => AcquiredImage.mk (idx + (k + 1)) (u (idx + (k + 1))) := funext fun k => rfl
    have hc2 : ((fun k => (100 * (idx + k + 1) + total) / (2 * total)) ∘ Nat.succ) =
        fun k => (100 * (idx + (k + 1) + 1) + total) / (2 * total) := funext fun k => rfl
    rw [hc1, hc2]

/-- C8 counterexample: the assembler accepts an image set with a single entry
for two scenes - it encodes one frame with the duration cap still 2 * 5
seconds instead of rejecting the partial set - and the whole pipeline run
given one image for a two-scene script terminates `completed` with a
one-frame artifact. -/
theorem claim_C8_counterexample :
    assembleVideo [⟨0, "u"⟩] 2 true = .ok ⟨1, 10⟩ ∧
    (1 < 2) ∧
    (parseScriptAndScenes script3 []).length = 2 ∧
    (generateVideoModel script3 [] envOneImage).job =
      some ⟨"completed", 100, "Video generation complete!", none⟩ ∧
    (generateVideoModel script3 [] envOneImage).artifact = some ⟨1, 10⟩ := by
  refine ⟨by decide, by decide, by decide, by decide, by decide⟩

/-- C8 (amended): the assembler performs no completeness check - for ANY
image list it encodes exactly the images it received under the fixed
duration cap `numScenes * 5` - and a full set (one `AcquiredImage` per index
0..N-1, in order) is present before assembly exactly when the acquisition
step completed every scene, as the edge function then returns one entry per
index. -/
theorem claim_C8_no_completeness_check (imgs : List AcquiredImage) (n : Nat)
    (descs : List String) (oracle : Nat → List RemoteResp) (u : Nat → String)
    (hne : descs ≠ [])
    (hall : ∀ i, i < descs.length → (attemptLoop 3 (oracle i)).1 = .acquired (u i)) :
    assembleVideo imgs n true = .ok ⟨imgs.length, n * 5⟩ ∧
    (serveSceneImages descs oracle).1 =
      .ok ((List.range descs.length).map fun k => ⟨k, u k⟩) := by
  constructor
  · rfl
  · unfold serveSceneImages
    rw [if_neg (fun h0 => hne (List.length_eq_zero.mp h0))]
    rw [serveLoop_acquired oracle descs.length u hall descs.length 0 [] [0] (by omega)]
    simp

/-- C8 witness: the amended theorem at a concrete two-scene acquisition. -/
theorem claim_C8_no_completeness_check_witness :
    assembleVideo [⟨0, "u"⟩] 2 true = .ok ⟨1, 10⟩ ∧
    (serveSceneImages ["first scene", "second scene"]
        (fun _ => [.okImage "img"])).1 =
      .ok ((List.range 2).map fun k => ⟨k, "img"⟩) :=
  claim_C8_no_completeness_check [⟨0, "u"⟩] 2 ["first scene", "second scene"]
    (fun _ => [.okImage "img"]) (fun _ => "img") (by decide) (by decide)

/-- Last element of a mapped range. -/
theorem getLast?_map_range (f : Nat → Nat) (k : Nat) :
    ((List.range (k + 1)).map f).getLast? = some (f k) := by
  rw [List.range_succ, List.map_append]
  simp

/-- A pointwise-monotone function maps a range to a non-decreasing list. -/
theorem chain'_map_range (f : Nat → Nat) (hf : ∀ i, f i ≤ f (i + 1)) (m : Nat) :
    List.Chain' (· ≤ ·) ((List.range m).map f) := by
  induction m with
  | zero => simp
  | succ k ih =>
    rw [List.range_succ, List.map_append]
    refine List.Chain'.append ih (by simp) ?_
    intro x hx y hy
    cases k with
    | zero => simp at hx
    | succ j =>
      rw [getLast?_map_range] at hx
      simp at hx hy
      subst hx; subst hy
      exact hf j

/-- Glueing a monotone mapped range to a non-decreasing tail. -/
theorem chain'_map_range_append (f : Nat → Nat) (m : Nat) (t : List Nat)
    (hf : ∀ i, f i ≤ f (i + 1)) (ht : List.Chain' (· ≤ ·) t)
    (hlast : ∀ k, k + 1 = m → ∀ y ∈ t.head?, f k ≤ y) :
    List.Chain' (· ≤ ·) ((List.range m).map f ++ t) := by
  refine List.Chain'.append (chain'_map_range f hf m) ht ?_
  intro x hx y hy
  cases m with
  | zero => simp at hx
  | succ j =>
    rw [getLast?_map_range] at hx
    simp at hx
    subst hx
    exact hlast j rfl y hy

/-- The per-image band value is monotone in the image index. -/
theorem imgProgress_step (m i : Nat) : imgProgress m i ≤ imgProgress m (i + 1) := by
  unfold imgProgress
  exact Nat.add_le_add_left (Nat.div_le_div_right (by omega)) 65

/-- The per-image band stays at or below 80. -/
theorem imgProgress_le_80 (m k : Nat) (h : k < m) : imgProgress m k ≤ 80 := by
  unfold imgProgress
  have h3 : (30 * k + m) / (2 * m) < 16 := by
    rw [Nat.div_lt_iff_lt_mul (by omega : 0 < 2 * m)]
    omega
  omega

/-- The observable trace of a successful run is non-decreasing and ends at
100. -/
theorem successObs_chain (m : Nat) :
    List.Chain' (· ≤ ·) (successObs m) ∧ (successObs m).getLast? = some 100 := by
  constructor
  · unfold successObs
    refine List.chain'_cons'.mpr ⟨by intro y hy; simp at hy; omega, ?_⟩
    refine List.chain'_cons'.mpr ⟨by intro y hy; simp at hy; omega, ?_⟩
    refine List.chain'_cons'.mpr ⟨by intro y hy; simp at hy; omega, ?_⟩
    refine List.chain'_cons'.mpr ⟨by intro y hy; simp at hy; omega, ?_⟩
    refine List.chain'_cons'.mpr ⟨?_, ?_⟩
    · intro y hy
      cases m with
      | zero => simp at hy; omega
      | succ j =>
        rw [List.range_succ_eq_map] at hy
        simp at hy
        subst hy
        unfold imgProgress
        exact Nat.le_add_right 65 _
    · refine chain'_map_range_append (imgProgress m) m [80, 100]
        (imgProgress_step m) (by norm_num [List.chain'_cons]) ?_
      intro k hk y hy
      simp only [List.head?_cons, Option.mem_def, Option.some.injEq] at hy
      have h80 : imgProgress m k ≤ 80 := imgProgress_le_80 m k (by omega)
      omega
  · unfold successObs
    rw [show (0 :: 5 :: 10 :: 55 :: 65 ::
        ((List.range m).map (imgProgress m) ++ [80, 100]) : List Nat) =
      (0 :: 5 :: 10 :: 55 :: 65 :: ((List.range m).map (imgProgress m) ++ [80])) ++ [100] from
        by simp]
    exact List.getLast?_concat _

/-- A successful run reports exactly the `successObs` trace. -/
theorem run_obs_success (script block : List Char) (env : ClientEnv)
    (imgs : List AcquiredImage)
    (hu : env.userPresent = true) (hj : env.jobCreateOk = true)
    (hi : env.invokeOutcome = .ok imgs) (hl : env.engineLoadOk = true)
    (he : env.encodeOk = true)
    (hs : (parseScriptAndScenes script block).isEmpty = false) :
    (generateVideoModel script block env).obs = successObs imgs.length := by
  unfold generateVideoModel
  rw [hu, hj, hi, hl, he]
  simp [clientImageStep, toAcquired, assembleVideo, pushObs, updJob, successObs, hs]

/-- The record writes of a fully acquired run are non-decreasing and end at
100. -/
theorem recordWrites_chain (descs : List String) (oracle : Nat → List RemoteResp)
    (u : Nat → String) (hne : descs ≠ [])
    (hall : ∀ i, i < descs.length → (attemptLoop 3 (oracle i)).1 = .acquired (u i)) :
    List.Chain' (· ≤ ·) (recordWrites descs oracle) ∧
    (recordWrites descs oracle).getLast? = some 100 := by
  have hn : descs.length ≠ 0 := fun h0 => hne (List.length_eq_zero.mp h0)
  unfold recordWrites serveSceneImages
  rw [if_neg hn]
  rw [serveLoop_acquired oracle descs.length u hall descs.length 0 [] [0] (by omega)]
  constructor
  · simp only [List.cons_append, List.nil_append, List.append_assoc]
    refine List.chain'_cons'.mpr ⟨by intro y hy; exact Nat.zero_le y, ?_⟩
    refine List.chain'_cons'.mpr ⟨by intro y hy; exact Nat.zero_le y, ?_⟩
    refine chain'_map_range_append
      (fun k => (100 * (0 + k + 1) + descs.length) / (2 * descs.length))
      descs.length [50, 55, 65, 80, 100] ?_ (by norm_num [List.chain'_cons]) ?_
    · intro i
      exact Nat.div_le_div_right (by omega)
    · intro k hk y hy
      simp only [List.head?_cons, Option.mem_def, Option.some.injEq] at hy
      have h50 : (100 * (0 + k + 1) + descs.length) / (2 * descs.length) ≤ 50 := by
        have hlen : 0 < descs.length := by omega
        have hlt : (100 * (0 + k + 1) + descs.length) / (2 * descs.length) < 51 := by
          rw [Nat.div_lt_iff_lt_mul (by omega : 0 < 2 * descs.length)]
          omega
        omega
      have hb : ((fun k => (100 * (0 + k + 1) + descs.length) / (2 * descs.length)) k)
          = (100 * (0 + k + 1) + descs.length) / (2 * descs.length) := rfl
      rw [hb]
      omega
  · have hlast : ∀ l : List Nat, (0 :: l ++ [55, 65, 80, 100]).getLast? = some 100 := by
      intro l
      rw [show ((0 : Nat) :: l ++ [55, 65, 80, 100]) = (0 :: l ++ [55, 65, 80]) ++ [100] from
        by simp]
      exact List.getLast?_concat _
    exact hlast _

/-- C7 counterexample: a failing run (empty script, first run) reports the
observable progress sequence 0, 5, 0 - the catch block resets the bar to 0
after 5 was reported, so the reported values are not non-decreasing. -/
theorem claim_C7_counterexample :
    (generateVideoModel [] [] envFirstRun).obs = [0, 5, 0] ∧
    ¬ List.Chain' (· ≤ ·) ((generateVideoModel [] [] envFirstRun).obs) := by
  refine ⟨by decide, fun hch => ?_⟩
  have he : (generateVideoModel [] [] envFirstRun).obs = [0, 5, 0] := by decide
  rw [he] at hch
  have h50 : (5 : Nat) ≤ 0 := (List.chain'_cons.mp (List.chain'_cons.mp hch).2).1
  omega

/-- C7 (amended): on a successful run every reported value is at least every
previously reported one and the final value is 100, for both destinations:
the in-process observable trace equals the non-decreasing `successObs`
sequence ending at 100, and the job-record progress writes (insert,
edge-function writes, client writes) form a non-decreasing sequence ending
at 100; only a failing run breaks monotonicity, by resetting the observable
to 0. -/
theorem claim_C7_progress_monotone (script block : List Char) (env : ClientEnv)
    (imgs : List AcquiredImage) (descs : List String) (oracle : Nat → List RemoteResp)
    (u : Nat → String)
    (hu : env.userPresent = true) (hj : env.jobCreateOk = true)
    (hi : env.invokeOutcome = .ok imgs) (hl : env.engineLoadOk = true)
    (he : env.encodeOk = true)
    (hs : (parseScriptAndScenes script block).isEmpty = false)
    (hne : descs ≠ [])
    (hall : ∀ i, i < descs.length → (attemptLoop 3 (oracle i)).1 = .acquired (u i)) :
    (generateVideoModel script block env).obs = successObs imgs.length ∧
    List.Chain' (· ≤ ·) ((generateVideoModel script block env).obs) ∧
    ((generateVideoModel script block env).obs).getLast? = some 100 ∧
    List.Chain' (· ≤ ·) (recordWrites descs oracle) ∧
    (recordWrites descs oracle).getLast? = some 100 := by
  have ho := run_obs_success script block env imgs hu hj hi hl he hs
  have hsc := successObs_chain imgs.length
  have hrc := recordWrites_chain descs oracle u hne hall
  exact ⟨ho, ho ▸ hsc.1, ho ▸ hsc.2, hrc.1, hrc.2⟩

/-- C7 witness: the amended theorem at a concrete successful one-scene run. -/
theorem claim_C7_progress_monotone_witness :
    (generateVideoModel "[00:00] Hello\n[00:05] World".data [] envFirstRun).obs =
      successObs 1 ∧
    List.Chain' (· ≤ ·)
      ((generateVideoModel "[00:00] Hello\n[00:05] World".data [] envFirstRun).obs) ∧
    ((generateVideoModel "[00:00] Hello\n[00:05] World".data [] envFirstRun).obs).getLast? =
      some 100 ∧
    List.Chain' (· ≤ ·) (recordWrites ["one scene"] fun _ => [.okImage "img"]) ∧
    (recordWrites ["one scene"] fun _ => [.okImage "img"]).getLast? = some 100 :=
  claim_C7_progress_monotone "[00:00] Hello\n[00:05] World".data [] envFirstRun
    [⟨0, "u"⟩] ["one scene"] (fun _ => [.okImage "img"]) (fun _ => "img")
    rfl rfl rfl rfl rfl (by decide) (by decide) (by decide)

/-- C9 (amended): a non-rate-limit failure is retried with the SAME backoff
schedule as a rate-limited one - `(4 - retries) * 2000` ms, i.e. 4 s then
6 s - and once the 3-attempt budget is exhausted the last failure is
surfaced as a thrown (fatal) error carrying the gateway error body. -/
theorem claim_C9_generic_backoff (a b c u : String) :
    attemptLoop 3 [.otherError a, .otherError b, .otherError c]
      = (.fatal (gatewayMsg c), [4000, 6000]) ∧
    attemptLoop 3 [.otherError a, .otherError b, .okImage u]
      = (.acquired u, [4000, 6000]) ∧
    attemptLoop 3 [.rateLimited, .rateLimited, .otherError c]
      = (.fatal (gatewayMsg c), [4000, 6000]) :=
  ⟨rfl, rfl, rfl⟩

end VidOpus
